import Mathlib

/-!
Shallow embedding of the weather monitoring/alerting service
(`services/weather/main.go`): the rolling transition-detector state, the
per-event detector `checkEvent`, the threshold classifier `getTempDesc`,
the daily digest `weatherStats` with its graphite query `getLast24`, and
the engine loop multiplexing events and ticks.

Go `float64` values are modelled as `ℚ`; the claims under study are about
the algebra of the detector, not binary rounding.  Go's dynamic field map
`map[string]interface{}` is modelled as an association list of `GoValue`s;
an unchecked type assertion that would panic, and an out-of-range index,
are modelled as the `.error` branch of `Except String` (a Go panic aborts
the processing step; there is no recover in the service).
-/

/-- The result of `services.Config.LookupDeviceName(ev)` compared against the
configured rain / outside-temperature / wind device names (the `switch` in
`checkEvent`); device identity resolution itself is external to the core. -/
inductive Device
  | rain
  | temp
  | wind
  | other
deriving DecidableEq, Repr

/-- A value stored in an event's dynamic field map (`ev.Fields`), Go
`interface{}` restricted to the shapes the weather service meets. -/
inductive GoValue
  | float (x : ℚ)
  | str (s : String)
deriving DecidableEq, Repr

/-- One incoming `pubsub.Event`, already classified to a device kind. -/
structure Event where
  device : Device
  fields : List (String × GoValue)
deriving DecidableEq, Repr

/-- Go map lookup `ev.Fields[k]` (missing key gives the nil interface,
here `none`). -/
def Event.getField (ev : Event) (k : String) : Option GoValue :=
  ev.fields.lookup k

/-- Go unchecked type assertion `ev.Fields[k].(float64)`: yields the float, or
panics (aborts the processing step) when the key is missing or not a float. -/
def assertFloat (ev : Event) (k : String) : Except String ℚ :=
  match ev.getField k with
  | some (.float x) => .ok x
  | _ => .error ("interface conversion: " ++ k)

/-- Go comma-ok type assertion `v, ok := ev.Fields[k].(float64)`: never panics,
giving the zero value `0` and `false` when the key is missing or mistyped. -/
def assertFloatOk (ev : Event) (k : String) : ℚ × Bool :=
  match ev.getField k with
  | some (.float x) => (x, true)
  | _ => (0, false)

/-- One alert handed to `tweet` / `services.SendAlert`: message text, the
subtopic tag, and the suppression interval in seconds. -/
structure Alert where
  message : String
  subtopic : String
  interval : ℤ
deriving DecidableEq, Repr

/-- The configured windy threshold `services.Config.Weather.Windy`. -/
structure Config where
  windy : ℚ
deriving DecidableEq, Repr

/-- The package-level rolling state
`var lastRainTotal, lastOutsideTemp, lastOutsideHumd, avgWind float64`. -/
structure RollingState where
  lastRainTotal : ℚ
  lastOutsideTemp : ℚ
  lastOutsideHumd : ℚ
  avgWind : ℚ
deriving DecidableEq, Repr

/-- Go zero-initialises package-level `float64` variables: the state at
engine start. -/
def initialState : RollingState := ⟨0, 0, 0, 0⟩

/-- One entry of a temperature description table (`type td struct`). -/
structure td where
  temp : ℚ
  noun : String
deriving DecidableEq, Repr

/-- `var lowTemperatures = []td{...}` from the source. -/
def lowTemperatures : List td :=
  [⟨-5, "a very cold"⟩, ⟨-2, "a rather cold"⟩, ⟨0, "a freezing"⟩,
   ⟨2, "a frosty"⟩, ⟨5, "a cold"⟩, ⟨7, "a moderate"⟩,
   ⟨10, "a pleasant"⟩, ⟨15, "a hot"⟩, ⟨25, "a scorching"⟩]

/-- `var highTemperatures = []td{...}` from the source. -/
def highTemperatures : List td :=
  [⟨1, "a very cold"⟩, ⟨4, "a rather cold"⟩, ⟨6, "a piercing"⟩,
   ⟨8, "a chilly"⟩, ⟨11, "a cool"⟩, ⟨15, "a moderate"⟩,
   ⟨18, "a reasonably warm"⟩, ⟨21, "a hot"⟩, ⟨31, "a scorching"⟩,
   ⟨36, "a sweltering"⟩]

/-- Left-pad a decimal string with zeros to width `w`. -/
def padZeros (s : String) (w : ℕ) : String :=
  if s.length ≥ w then s else String.mk (List.replicate (w - s.length) '0') ++ s

/-- Go `fmt.Sprintf` fixed-point formatting `%.
<prec>f` of a rational: round
to `prec` decimal places and print with exactly `prec` digits after the dot. -/
def formatFixed (prec : ℕ) (x : ℚ) : String :=
  let m : ℤ := round (x * ((10 : ℚ) ^ prec))
  let d : ℕ := 10 ^ prec
  let sign := if m < 0 then "-" else ""
  let n := m.natAbs
  if prec = 0 then sign ++ toString (n / d)
  else sign ++ toString (n / d) ++ "." ++ padZeros (toString (n % d)) prec

/-- Go `%f`-verb formatting of an arbitrary interface value (used for
`dayTotal`, which is read without a type assertion): a float prints
normally, anything else prints a `%!f` diagnostic, never a panic. -/
def formatGoFloat (prec : ℕ) (v : Option GoValue) : String :=
  match v with
  | some (.float x) => formatFixed prec x
  | some (.str s) => "%!f(string=" ++ s ++ ")"
  | none => "%!f(<nil>)"

/-- The rain alert body:
`fmt.Sprintf("It's raining! (%.2fmm today)", dayTotal)`. -/
def rainMessage (ev : Event) : String :=
  "It's raining! (" ++ formatGoFloat 2 (ev.getField "day_total") ++ "mm today)"

/-- The below-zero alert body. -/
def belowZeroMessage : String := "Brrr, it's gone below zero!"

/-- The high-humidity alert body. -/
def looksLikeRainMessage : String := "Looks like rain..."

/-- The wind alert body:
`fmt.Sprintf("It's windy outside - %.1fmph!", mph)`. -/
def windMessage (mph : ℚ) : String :=
  "It's windy outside - " ++ formatFixed 1 mph ++ "mph!"

/-- The wind smoothing update `avgWind = avgWind*39/40 + speed*1/40`
("about 2 minutes worth moving average"). -/
def windUpdate (avg speed : ℚ) : ℚ :=
  avg * 39 / 40 + speed * 1 / 40

/-- `checkEvent` from the source: dispatch on the device kind, run the
per-kind transition detection against the rolling state, and return the
updated state with the alerts sent (in `tweet` order).  An unchecked type
assertion on a missing or mistyped field is the `.error` branch: the Go
code panics there, processing of the event stops and nothing is updated. -/
def checkEvent (cfg : Config) (ev : Event) (st : RollingState) :
    Except String (RollingState × List Alert) :=
  match ev.device with
  | .rain =>
    match assertFloat ev "all_total" with
    | .error e => .error e
    | .ok rain =>
      let alerts :=
        if st.lastRainTotal ≠ 0 ∧ rain > st.lastRainTotal
        then [⟨rainMessage ev, "rain", 7200⟩] else []
      .ok ({ st with lastRainTotal := rain }, alerts)
  | .temp =>
    match assertFloat ev "temp" with
    | .error e => .error e
    | .ok temp =>
      let a1 :=
        if st.lastOutsideTemp ≠ 0 ∧ st.lastOutsideTemp ≥ 0 ∧ temp < 0
        then [⟨belowZeroMessage, "temp", 7200⟩] else []
      let humdOk := assertFloatOk ev "humidity"
      let a2 :=
        if humdOk.2 = true ∧ st.lastOutsideHumd ≠ 0 ∧
            st.lastOutsideHumd < 96 ∧ humdOk.1 ≥ 96
        then [⟨looksLikeRainMessage, "humidity", 7200⟩] else []
      .ok ({ st with lastOutsideTemp := temp, lastOutsideHumd := humdOk.1 },
           a1 ++ a2)
  | .wind =>
    match assertFloat ev "speed" with
    | .error e => .error e
    | .ok speed =>
      let avg := windUpdate st.avgWind speed
      let alerts :=
        if avg > cfg.windy
        then [⟨windMessage (avg * 2237 / 1000), "wind", 7200⟩] else []
      .ok ({ st with avgWind := avg }, alerts)
  | .other => .ok (st, [])

/-- `getTempDesc` from the source: walk the table and return the noun of the
first entry whose breakpoint exceeds `t`, else the empty string. -/
def getTempDesc (t : ℚ) (temps : List td) : String :=
  match temps with
  | [] => ""
  | e :: rest => if t < e.temp then e.noun else getTempDesc t rest

/-- One timestamped scalar of a graphite series. -/
structure Datapoint where
  value : ℚ
deriving DecidableEq, Repr

/-- One graphite series (`data[i]` with its `Datapoints`). -/
structure Series where
  datapoints : List Datapoint
deriving DecidableEq, Repr

/-- The outcome of one `gr.Query` call: a list of series, or an error. -/
abbrev QueryResult := Except String (List Series)

/-- `getLast24` from the source: on query error, log and return `0.0`; on
success, `data[0].Datapoints[0].Value` — which panics (the `.error` branch)
when the series list or its first datapoint list is empty. -/
def getLast24 (res : QueryResult) : Except String ℚ :=
  match res with
  | .error _ => .ok 0
  | .ok data =>
    match data with
    | [] => .error "index out of range"
    | s :: _ =>
      match s.datapoints with
      | [] => .error "index out of range"
      | d :: _ => .ok d.value

/-- The fixed no-data digest sentence from the source. -/
def fallbackSentence : String :=
  "Weather: I didn't get any outside temperature data yesterday!"

/-- The formatted digest sentence from the source, one decimal place on each
extremum, the max classified by the high table and the min by the low table. -/
def renderSentence (highest lowest : ℚ) : String :=
  "Weather: Outside it got up to " ++ getTempDesc highest highTemperatures ++
    " " ++ formatFixed 1 highest ++ "°C and went down to " ++
    getTempDesc lowest lowTemperatures ++ " " ++ formatFixed 1 lowest ++
    "°C in the last 24 hours."

/-- `weatherStats` from the source: query yesterday's max and min, fall back
to the fixed sentence when both came back `0`, else render the formatted
sentence.  Propagates a `getLast24` panic. -/
def weatherStats (maxRes minRes : QueryResult) : Except String String :=
  match getLast24 maxRes with
  | .error e => .error e
  | .ok highest =>
    match getLast24 minRes with
    | .error e => .error e
    | .ok lowest =>
      if lowest = 0 ∧ highest = 0 then .ok fallbackSentence
      else .ok (renderSentence highest lowest)

/-- One iteration's input in the engine loop's `select`: an event from the
subscription channel, or the daily scheduler tick (carrying the two query
outcomes the tick's digest will see). -/
inductive EngineInput
  | event (ev : Event)
  | tick (maxRes minRes : QueryResult)

/-- One iteration of the `Run` loop: process exactly one input to
completion.  A tick sends the digest with subtopic `daily` and suppression
interval `0`. -/
def engineStep (cfg : Config) (st : RollingState) (i : EngineInput) :
    Except String (RollingState × List Alert) :=
  match i with
  | .event ev => checkEvent cfg ev st
  | .tick maxRes minRes =>
    match weatherStats maxRes minRes with
    | .error e => .error e
    | .ok msg => .ok (st, [⟨msg, "daily", 0⟩])

/-- The engine loop over a finite prefix of inputs, threading the rolling
state and concatenating the alerts; a panic anywhere aborts the run. -/
def engineRun (cfg : Config) (st : RollingState) :
    List EngineInput → Except String (RollingState × List Alert)
  | [] => .ok (st, [])
  | i :: rest =>
    match engineStep cfg st i with
    | .error e => .error e
    | .ok (st1, a1) =>
      match engineRun cfg st1 rest with
      | .error e => .error e
      | .ok (st2, a2) => .ok (st2, a1 ++ a2)

/-- The classifier as the spec words it: the label of the first entry whose
breakpoint strictly exceeds the value, and the empty label when the value
meets or exceeds every breakpoint. -/
def specClassify (t : ℚ) (temps : List td) : String :=
  match temps.find? fun e => decide (t < e.temp) with
  | some e => e.noun
  | none => ""

/-- Unfolding `checkEvent` on a rain event whose `all_total` field is the
float `r`. -/
lemma checkEvent_rain_eq (cfg : Config) (st : RollingState) (ev : Event)
    (r : ℚ) (hdev : ev.device = Device.rain)
    (hr : ev.getField "all_total" = some (GoValue.float r)) :
    checkEvent cfg ev st =
      .ok ({ st with lastRainTotal := r },
        if st.lastRainTotal ≠ 0 ∧ r > st.lastRainTotal
        then [⟨rainMessage ev, "rain", 7200⟩] else []) := by
  unfold checkEvent assertFloat
  rw [hdev, hr]

/-- Unfolding `checkEvent` on a temperature event whose `temp` field is the
float `t`; the humidity comma-ok assertion stays symbolic. -/
lemma checkEvent_temp_eq (cfg : Config) (st : RollingState) (ev : Event)
    (t : ℚ) (hdev : ev.device = Device.temp)
    (ht : ev.getField "temp" = some (GoValue.float t)) :
    checkEvent cfg ev st =
      .ok ({ st with lastOutsideTemp := t,
                     lastOutsideHumd := (assertFloatOk ev "humidity").1 },
        (if st.lastOutsideTemp ≠ 0 ∧ st.lastOutsideTemp ≥ 0 ∧ t < 0
         then [⟨belowZeroMessage, "temp", 7200⟩] else []) ++
        (if (assertFloatOk ev "humidity").2 = true ∧ st.lastOutsideHumd ≠ 0 ∧
             st.lastOutsideHumd < 96 ∧ (assertFloatOk ev "humidity").1 ≥ 96
         then [⟨looksLikeRainMessage, "humidity", 7200⟩] else [])) := by
  unfold checkEvent assertFloat
  rw [hdev, ht]

/-- Unfolding `checkEvent` on a wind event whose `speed` field is the
float `s`. -/
lemma checkEvent_wind_eq (cfg : Config) (st : RollingState) (ev : Event)
    (s : ℚ) (hdev : ev.device = Device.wind)
    (hs : ev.getField "speed" = some (GoValue.float s)) :
    checkEvent cfg ev st =
      .ok ({ st with avgWind := windUpdate st.avgWind s },
        if windUpdate st.avgWind s > cfg.windy
        then [⟨windMessage (windUpdate st.avgWind s * 2237 / 1000),
               "wind", 7200⟩]
        else []) := by
  unfold checkEvent assertFloat
  rw [hdev, hs]

/-- Evaluation helper: `formatFixed` at a concrete rational follows from
evaluating the rounded scaled integer. -/
lemma formatFixed_eval (prec : ℕ) (x : ℚ) (m : ℤ)
    (h : round (x * ((10 : ℚ) ^ prec)) = m) :
    formatFixed prec x =
      (if m < 0 then "-" else "") ++
        (if prec = 0 then toString (m.natAbs / 10 ^ prec)
         else toString (m.natAbs / 10 ^ prec) ++ "." ++
           padZeros (toString (m.natAbs % 10 ^ prec)) prec) := by
  simp only [formatFixed, h]
  split <;> simp [String.append_assoc]

/-- C5: for every rain Reading and every prior RollingState, a rain alert
fires iff the previously stored rain total was non-zero and the new
cumulative total is strictly greater; in every case the stored rain total
is updated to the new value (and no other state field moves). -/
theorem rain_alert_iff_seeded_and_greater (cfg : Config) (st : RollingState)
    (ev : Event) (r : ℚ) (hdev : ev.device = Device.rain)
    (hr : ev.getField "all_total" = some (GoValue.float r)) :
    ∃ st' alerts, checkEvent cfg ev st = .ok (st', alerts) ∧
      st'.lastRainTotal = r ∧
      st'.lastOutsideTemp = st.lastOutsideTemp ∧
      st'.lastOutsideHumd = st.lastOutsideHumd ∧
      st'.avgWind = st.avgWind ∧
      (alerts ≠ [] ↔ st.lastRainTotal ≠ 0 ∧ r > st.lastRainTotal) := by
  refine ⟨_, _, checkEvent_rain_eq cfg st ev r hdev hr, rfl, rfl, rfl, rfl, ?_⟩
  by_cases h : st.lastRainTotal ≠ 0 ∧ r > st.lastRainTotal <;> simp [h]

/-- C5 witness: the rain total 1 is seeded, the new total 2 exceeds it, so
the alert list is non-empty and the stored total becomes 2. -/
theorem rain_alert_iff_seeded_and_greater_witness :
    ∃ st' alerts,
      checkEvent ⟨10⟩ ⟨Device.rain, [("all_total", GoValue.float 2)]⟩
          ⟨1, 0, 0, 0⟩ = .ok (st', alerts) ∧
      st'.lastRainTotal = 2 ∧
      st'.lastOutsideTemp = (⟨1, 0, 0, 0⟩ : RollingState).lastOutsideTemp ∧
      st'.lastOutsideHumd = (⟨1, 0, 0, 0⟩ : RollingState).lastOutsideHumd ∧
      st'.avgWind = (⟨1, 0, 0, 0⟩ : RollingState).avgWind ∧
      (alerts ≠ [] ↔ (⟨1, 0, 0, 0⟩ : RollingState).lastRainTotal ≠ 0 ∧
        (2 : ℚ) > (⟨1, 0, 0, 0⟩ : RollingState).lastRainTotal) :=
  rain_alert_iff_seeded_and_greater ⟨10⟩ ⟨1, 0, 0, 0⟩
    ⟨Device.rain, [("all_total", GoValue.float 2)]⟩ 2 rfl rfl

/-- C7: threshold classification is total and returns the label of the first
entry whose breakpoint strictly exceeds the value, the empty label when the
value meets or exceeds every breakpoint; on the table
`[(0,"freezing"),(5,"cold")]` the values `-1`, `3`, `10` classify to
`"freezing"`, `"cold"`, `""`. -/
theorem getTempDesc_first_strictly_greater :
    (∀ (t : ℚ) (temps : List td), getTempDesc t temps = specClassify t temps) ∧
    getTempDesc (-1) [⟨0, "freezing"⟩, ⟨5, "cold"⟩] = "freezing" ∧
    getTempDesc 3 [⟨0, "freezing"⟩, ⟨5, "cold"⟩] = "cold" ∧
    getTempDesc 10 [⟨0, "freezing"⟩, ⟨5, "cold"⟩] = "" := by
  refine ⟨?_, ?_, ?_, ?_⟩
  · intro t temps
    induction temps with
    | nil => rfl
    | cons e rest ih =>
      by_cases h : t < e.temp
      · simp [getTempDesc, specClassify, List.find?, h]
      · simp only [getTempDesc, specClassify, List.find?, h, if_false,
          decide_eq_true_eq] at ih ⊢
        simpa [h] using ih
  · norm_num [getTempDesc]
  · norm_num [getTempDesc]
  · norm_num [getTempDesc]

/-- C6: on a temperature Reading the below-zero alert is emitted iff the
stored temperature was non-zero, was `≥ 0` and the new temperature is `< 0`,
and the stored temperature always updates to the new value; the seeded
sequence `[1.0, -0.5]` fires exactly one below-zero alert and the
already-below sequence `[-1.0, -2.0]` fires none. -/
theorem belowZero_one_way_edge :
    (∀ (cfg : Config) (st : RollingState) (ev : Event) (t : ℚ),
      ev.device = Device.temp →
      ev.getField "temp" = some (GoValue.float t) →
      ∃ st' alerts, checkEvent cfg ev st = .ok (st', alerts) ∧
        st'.lastOutsideTemp = t ∧
        ((⟨belowZeroMessage, "temp", 7200⟩ : Alert) ∈ alerts ↔
          st.lastOutsideTemp ≠ 0 ∧ st.lastOutsideTemp ≥ 0 ∧ t < 0)) ∧
    (engineRun ⟨0⟩ ⟨0, 1/2, 0, 0⟩
        [.event ⟨Device.temp, [("temp", GoValue.float 1)]⟩,
         .event ⟨Device.temp, [("temp", GoValue.float (-1/2))]⟩]).map
        (fun p => p.2.count ⟨belowZeroMessage, "temp", 7200⟩) = .ok 1 ∧
    (engineRun ⟨0⟩ ⟨0, -1, 0, 0⟩
        [.event ⟨Device.temp, [("temp", GoValue.float (-1))]⟩,
         .event ⟨Device.temp, [("temp", GoValue.float (-2))]⟩]).map
        (fun p => p.2.count ⟨belowZeroMessage, "temp", 7200⟩) = .ok 0 := by
  refine ⟨?_, ?_, ?_⟩
  · intro cfg st ev t hdev ht
    refine ⟨_, _, checkEvent_temp_eq cfg st ev t hdev ht, rfl, ?_⟩
    by_cases h1 : st.lastOutsideTemp ≠ 0 ∧ st.lastOutsideTemp ≥ 0 ∧ t < 0
    · simp [h1]
    · by_cases h2 : (assertFloatOk ev "humidity").2 = true ∧
          st.lastOutsideHumd ≠ 0 ∧ st.lastOutsideHumd < 96 ∧
          (assertFloatOk ev "humidity").1 ≥ 96 <;>
        simp [h1, h2, belowZeroMessage, looksLikeRainMessage]
  · norm_num [engineRun, engineStep, checkEvent, assertFloat, assertFloatOk,
      Event.getField, List.lookup, belowZeroMessage, List.count, List.countP,
      List.countP.go, Except.map, beq_iff_eq,
      show ("humidity" == "temp") = false from by decide,
      show ("temp" == "temp") = true from by decide]
  · norm_num [engineRun, engineStep, checkEvent, assertFloat, assertFloatOk,
      Event.getField, List.lookup, belowZeroMessage, List.count, List.countP,
      List.countP.go, Except.map, beq_iff_eq,
      show ("humidity" == "temp") = false from by decide,
      show ("temp" == "temp") = true from by decide]

/-- C4 counterexample: a temperature Reading with no humidity field, against
a state whose stored humidity is 90, resets the stored humidity to 0 — the
claim says the stored humidity state would be left unchanged at 90. -/
theorem humidity_absent_resets_state_cex :
    checkEvent ⟨10⟩ ⟨Device.temp, [("temp", GoValue.float 10)]⟩ ⟨0, 5, 90, 0⟩ =
      .ok (⟨0, 10, 0, 0⟩, []) ∧
    ((0 : ℚ) ≠ 90) := by
  constructor
  · norm_num [checkEvent, assertFloat, assertFloatOk, Event.getField,
      List.lookup,
      show ("humidity" == "temp") = false from by decide,
      show ("temp" == "temp") = true from by decide]
  · norm_num

/-- C4 amended: on a temperature Reading with the humidity field present as
a float `h`, the looks-like-rain alert fires iff the stored humidity was
non-zero, was `< 96` and `h ≥ 96`, and the stored humidity becomes `h`;
with the humidity field absent the check is skipped (no alert) but the
stored humidity is overwritten with the comma-ok zero value `0`, not left
unchanged.  The seeded humidity step `90 → 97` fires exactly one alert and
the step `97 → 98` fires none. -/
theorem humidity_check_present_and_absent :
    (∀ (cfg : Config) (st : RollingState) (ev : Event) (t h : ℚ),
      ev.device = Device.temp →
      ev.getField "temp" = some (GoValue.float t) →
      ev.getField "humidity" = some (GoValue.float h) →
      ∃ st' alerts, checkEvent cfg ev st = .ok (st', alerts) ∧
        st'.lastOutsideHumd = h ∧
        ((⟨looksLikeRainMessage, "humidity", 7200⟩ : Alert) ∈ alerts ↔
          st.lastOutsideHumd ≠ 0 ∧ st.lastOutsideHumd < 96 ∧ h ≥ 96)) ∧
    (∀ (cfg : Config) (st : RollingState) (ev : Event) (t : ℚ),
      ev.device = Device.temp →
      ev.getField "temp" = some (GoValue.float t) →
      ev.getField "humidity" = none →
      ∃ st' alerts, checkEvent cfg ev st = .ok (st', alerts) ∧
        st'.lastOutsideHumd = 0 ∧
        (⟨looksLikeRainMessage, "humidity", 7200⟩ : Alert) ∉ alerts) ∧
    (checkEvent ⟨0⟩ ⟨Device.temp, [("temp", GoValue.float 10),
        ("humidity", GoValue.float 97)]⟩ ⟨0, 5, 90, 0⟩).map
      (fun p => (p.1.lastOutsideHumd, p.2.count
        ⟨looksLikeRainMessage, "humidity", 7200⟩)) = .ok ((97 : ℚ), 1) ∧
    (checkEvent ⟨0⟩ ⟨Device.temp, [("temp", GoValue.float 10),
        ("humidity", GoValue.float 98)]⟩ ⟨0, 5, 97, 0⟩).map
      (fun p => (p.1.lastOutsideHumd, p.2.count
        ⟨looksLikeRainMessage, "humidity", 7200⟩)) = .ok ((98 : ℚ), 0) := by
  refine ⟨?_, ?_, ?_, ?_⟩
  · intro cfg st ev t h hdev ht hh
    have hok : assertFloatOk ev "humidity" = (h, true) := by
      unfold assertFloatOk
      rw [hh]
    refine ⟨_, _, checkEvent_temp_eq cfg st ev t hdev ht, by rw [hok], ?_⟩
    rw [hok]
    by_cases h2 : st.lastOutsideHumd ≠ 0 ∧ st.lastOutsideHumd < 96 ∧ h ≥ 96
    · simp [h2]
    · by_cases h1 : st.lastOutsideTemp ≠ 0 ∧ st.lastOutsideTemp ≥ 0 ∧ t < 0 <;>
        simp only [hok] <;>
        simp [h1, h2, belowZeroMessage, looksLikeRainMessage, and_assoc]
  · intro cfg st ev t hdev ht hh
    have hok : assertFloatOk ev "humidity" = (0, false) := by
      unfold assertFloatOk
      rw [hh]
    refine ⟨_, _, checkEvent_temp_eq cfg st ev t hdev ht, by rw [hok], ?_⟩
    by_cases h1 : st.lastOutsideTemp ≠ 0 ∧ st.lastOutsideTemp ≥ 0 ∧ t < 0 <;>
      simp [h1, hok, belowZeroMessage, looksLikeRainMessage]
  · norm_num [checkEvent, assertFloat, assertFloatOk, Event.getField,
      List.lookup, List.count, List.countP, List.countP.go, Except.map,
      beq_iff_eq, looksLikeRainMessage,
      show ("humidity" == "temp") = false from by decide,
      show ("temp" == "temp") = true from by decide,
      show ("humidity" == "humidity") = true from by decide]
  · norm_num [checkEvent, assertFloat, assertFloatOk, Event.getField,
      List.lookup, List.count, List.countP, List.countP.go, Except.map,
      beq_iff_eq, looksLikeRainMessage,
      show ("humidity" == "temp") = false from by decide,
      show ("temp" == "temp") = true from by decide,
      show ("humidity" == "humidity") = true from by decide]

/-- `assertFloat` succeeds exactly on a float-valued field. -/
lemma assertFloat_eq_ok (ev : Event) (k : String) (x : ℚ) :
    assertFloat ev k = .ok x ↔ ev.getField k = some (GoValue.float x) := by
  unfold assertFloat
  cases h : ev.getField k with
  | none => simp
  | some v => cases v <;> simp

/-- C3 counterexample: from the all-zero initial state, the very first wind
Reading (speed 1000, windy threshold 10) already emits an alert — the first
observation is not only used to seed state. -/
theorem first_wind_reading_alerts_cex :
    (checkEvent ⟨10⟩ ⟨Device.wind, [("speed", GoValue.float 1000)]⟩
        initialState).map (fun p => (p.1, p.2.length)) =
      .ok ((⟨0, 0, 0, 25⟩ : RollingState), 1) := by
  norm_num [checkEvent, assertFloat, Event.getField, List.lookup,
    initialState, windUpdate, Except.map,
    show ("speed" == "speed") = true from by decide]

/-- C3 amended: processing the first Reading from the all-zero initial state
emits no alert for the rain and temperature (incl. humidity) kinds, whose
checks are gated on a non-zero stored value; the wind kind has no such gate:
its first Reading seeds the average at `speed/40` and emits an alert iff
that already exceeds the configured windy threshold. -/
theorem first_reading_seeds_rain_temp_only :
    (∀ (cfg : Config) (ev : Event) (st' : RollingState) (alerts : List Alert),
      (ev.device = Device.rain ∨ ev.device = Device.temp) →
      checkEvent cfg ev initialState = .ok (st', alerts) → alerts = []) ∧
    (∀ (cfg : Config) (ev : Event) (s : ℚ),
      ev.device = Device.wind →
      ev.getField "speed" = some (GoValue.float s) →
      checkEvent cfg ev initialState =
        .ok ({ initialState with avgWind := windUpdate 0 s },
          if windUpdate 0 s > cfg.windy
          then [⟨windMessage (windUpdate 0 s * 2237 / 1000), "wind", 7200⟩]
          else [])) := by
  constructor
  · rintro cfg ev st' alerts (hdev | hdev) hok
    · cases hr : assertFloat ev "all_total" with
      | error e =>
        rw [show checkEvent cfg ev initialState = .error e by
          unfold checkEvent
          rw [hdev, hr]] at hok
        cases hok
      | ok r =>
        rw [checkEvent_rain_eq cfg initialState ev r hdev
          ((assertFloat_eq_ok ev "all_total" r).mp hr)] at hok
        simp only [initialState, ne_eq, not_true_eq_false, false_and,
          if_false, Except.ok.injEq, Prod.mk.injEq] at hok
        exact hok.2.symm
    · cases hr : assertFloat ev "temp" with
      | error e =>
        rw [show checkEvent cfg ev initialState = .error e by
          unfold checkEvent
          rw [hdev, hr]] at hok
        cases hok
      | ok t =>
        rw [checkEvent_temp_eq cfg initialState ev t hdev
          ((assertFloat_eq_ok ev "temp" t).mp hr)] at hok
        simp only [initialState, ne_eq, not_true_eq_false, false_and,
          and_false, if_false, List.append_nil, Except.ok.injEq,
          Prod.mk.injEq] at hok
        exact hok.2.symm
  · intro cfg ev s hdev hs
    simpa [initialState] using checkEvent_wind_eq cfg initialState ev s hdev hs

/-- C3 amended, witness: a first rain Reading from the initial state emits
no alert, and a first wind Reading of speed 1000 under threshold 10 emits
exactly the wind alert. -/
theorem first_reading_seeds_rain_temp_only_witness :
    ((⟨Device.rain, [("all_total", GoValue.float 3)]⟩ : Event).device =
        Device.rain ∨
      (⟨Device.rain, [("all_total", GoValue.float 3)]⟩ : Event).device =
        Device.temp) ∧
    checkEvent ⟨10⟩ ⟨Device.rain, [("all_total", GoValue.float 3)]⟩
      initialState = .ok (⟨3, 0, 0, 0⟩, []) ∧
    (([] : List Alert) = []) := by
  have h1 : (⟨Device.rain, [("all_total", GoValue.float 3)]⟩ : Event).device =
      Device.rain ∨
      (⟨Device.rain, [("all_total", GoValue.float 3)]⟩ : Event).device =
        Device.temp := Or.inl rfl
  have h2 : checkEvent ⟨10⟩ ⟨Device.rain, [("all_total", GoValue.float 3)]⟩
      initialState = .ok (⟨3, 0, 0, 0⟩, []) := by
    norm_num [checkEvent, assertFloat, Event.getField, List.lookup,
      initialState, show ("all_total" == "all_total") = true from by decide]
  exact ⟨h1, h2, first_reading_seeds_rain_temp_only.1 ⟨10⟩
    ⟨Device.rain, [("all_total", GoValue.float 3)]⟩ ⟨3, 0, 0, 0⟩ [] h1 h2⟩

/-- C9: replaying the identical rain or temperature Reading twice in
immediate succession never double-triggers: the second processing sees
previous equal to new, leaves the state where it is and emits no alert. -/
theorem replay_identical_reading_no_double_trigger (cfg : Config)
    (st st1 st2 : RollingState) (ev : Event) (a1 a2 : List Alert)
    (hdev : ev.device = Device.rain ∨ ev.device = Device.temp)
    (h1 : checkEvent cfg ev st = .ok (st1, a1))
    (h2 : checkEvent cfg ev st1 = .ok (st2, a2)) :
    st2 = st1 ∧ a2 = [] := by
  rcases hdev with hdev | hdev
  · cases hr : assertFloat ev "all_total" with
    | error e =>
      rw [show checkEvent cfg ev st = .error e by
        unfold checkEvent
        rw [hdev, hr]] at h1
      cases h1
    | ok r =>
      have hg := (assertFloat_eq_ok ev "all_total" r).mp hr
      rw [checkEvent_rain_eq cfg st ev r hdev hg] at h1
      simp only [Except.ok.injEq, Prod.mk.injEq] at h1
      obtain ⟨hst1, -⟩ := h1
      rw [checkEvent_rain_eq cfg st1 ev r hdev hg] at h2
      rw [← hst1] at h2
      simp only [lt_self_iff_false, and_false, if_false, Except.ok.injEq,
        Prod.mk.injEq] at h2
      exact ⟨h2.1.symm.trans hst1, h2.2.symm⟩
  · cases hr : assertFloat ev "temp" with
    | error e =>
      rw [show checkEvent cfg ev st = .error e by
        unfold checkEvent
        rw [hdev, hr]] at h1
      cases h1
    | ok t =>
      have hg := (assertFloat_eq_ok ev "temp" t).mp hr
      rw [checkEvent_temp_eq cfg st ev t hdev hg] at h1
      simp only [Except.ok.injEq, Prod.mk.injEq] at h1
      obtain ⟨hst1, -⟩ := h1
      rw [checkEvent_temp_eq cfg st1 ev t hdev hg] at h2
      rw [← hst1] at h2
      have hcon : ¬(t ≠ 0 ∧ t ≥ 0 ∧ t < 0) := by
        rintro ⟨-, hge, hlt⟩
        exact absurd hlt (not_lt.mpr hge)
      have hcon2 : ¬((assertFloatOk ev "humidity").2 = true ∧
          (assertFloatOk ev "humidity").1 ≠ 0 ∧
          (assertFloatOk ev "humidity").1 < 96 ∧
          (assertFloatOk ev "humidity").1 ≥ 96) := by
        rintro ⟨-, -, hlt, hge⟩
        exact absurd hge (not_le.mpr hlt)
      simp only [RollingState.lastOutsideTemp, RollingState.lastOutsideHumd,
        hcon, hcon2, if_false, List.append_nil, Except.ok.injEq,
        Prod.mk.injEq] at h2
      exact ⟨h2.1.symm.trans hst1, h2.2.symm⟩

/-- C9 witness: the identical rain Reading (total 2) processed twice from a
seeded state alerts on the first processing only; the second pass leaves the
state in place and emits nothing. -/
theorem replay_identical_reading_no_double_trigger_witness :
    ((⟨Device.rain, [("all_total", GoValue.float 2)]⟩ : Event).device =
        Device.rain ∨
      (⟨Device.rain, [("all_total", GoValue.float 2)]⟩ : Event).device =
        Device.temp) ∧
    checkEvent ⟨10⟩ ⟨Device.rain, [("all_total", GoValue.float 2)]⟩
        ⟨1, 0, 0, 0⟩ =
      .ok (⟨2, 0, 0, 0⟩,
        [⟨rainMessage ⟨Device.rain, [("all_total", GoValue.float 2)]⟩,
          "rain", 7200⟩]) ∧
    checkEvent ⟨10⟩ ⟨Device.rain, [("all_total", GoValue.float 2)]⟩
        ⟨2, 0, 0, 0⟩ =
      .ok (⟨2, 0, 0, 0⟩, []) ∧
    ((⟨2, 0, 0, 0⟩ : RollingState) = ⟨2, 0, 0, 0⟩ ∧
      ([] : List Alert) = []) := by
  have hd : (⟨Device.rain, [("all_total", GoValue.float 2)]⟩ : Event).device =
      Device.rain ∨
      (⟨Device.rain, [("all_total", GoValue.float 2)]⟩ : Event).device =
        Device.temp := Or.inl rfl
  have h1 : checkEvent ⟨10⟩ ⟨Device.rain, [("all_total", GoValue.float 2)]⟩
      ⟨1, 0, 0, 0⟩ =
      .ok (⟨2, 0, 0, 0⟩,
        [⟨rainMessage ⟨Device.rain, [("all_total", GoValue.float 2)]⟩,
          "rain", 7200⟩]) := by
    norm_num [checkEvent, assertFloat, Event.getField, List.lookup,
      show ("all_total" == "all_total") = true from by decide]
  have h2 : checkEvent ⟨10⟩ ⟨Device.rain, [("all_total", GoValue.float 2)]⟩
      ⟨2, 0, 0, 0⟩ = .ok (⟨2, 0, 0, 0⟩, []) := by
    norm_num [checkEvent, assertFloat, Event.getField, List.lookup,
      show ("all_total" == "all_total") = true from by decide]
  exact ⟨hd, h1, h2,
    replay_identical_reading_no_double_trigger ⟨10⟩ ⟨1, 0, 0, 0⟩
      ⟨2, 0, 0, 0⟩ ⟨2, 0, 0, 0⟩
      ⟨Device.rain, [("all_total", GoValue.float 2)]⟩
      [⟨rainMessage ⟨Device.rain, [("all_total", GoValue.float 2)]⟩,
        "rain", 7200⟩] [] hd h1 h2⟩

/-- Iterating the wind smoothing update on a constant sample `s`, starting
from `a0`: the trace of `avgWind` under a sustained constant wind Reading. -/
def windIter (a0 s : ℚ) : ℕ → ℚ
  | 0 => a0
  | n + 1 => windUpdate (windIter a0 s n) s

/-- Closed form of the distance to the sample: each update multiplies the
gap by `39/40`. -/
lemma windIter_sub_closed (a0 s : ℚ) (n : ℕ) :
    windIter a0 s n - s = (39 / 40 : ℚ) ^ n * (a0 - s) := by
  induction n with
  | zero => simp [windIter]
  | succ n ih =>
    have : windIter a0 s (n + 1) - s = (39 / 40 : ℚ) * (windIter a0 s n - s) := by
      simp only [windIter, windUpdate]
      ring
    rw [this, ih, pow_succ]
    ring

/-- C8: the wind smoothing update is exactly `avg*39/40 + sample*1/40`
(the processed wind event updates `avgWind` via `windUpdate`); under a
constant sample `s` the distance to `s` never grows, every updated average
stays within `[min a0 s, max a0 s]`, and the average comes arbitrarily
close to `s`. -/
theorem wind_ema_exact_monotone_bounded :
    (∀ a s : ℚ, windUpdate a s = a * (39 / 40) + s * (1 / 40)) ∧
    (∀ (cfg : Config) (st : RollingState) (ev : Event) (s : ℚ),
      ev.device = Device.wind →
      ev.getField "speed" = some (GoValue.float s) →
      ∃ alerts, checkEvent cfg ev st =
        .ok ({ st with avgWind := windUpdate st.avgWind s }, alerts)) ∧
    (∀ (a0 s : ℚ) (n : ℕ),
      |windIter a0 s (n + 1) - s| ≤ |windIter a0 s n - s|) ∧
    (∀ (a0 s : ℚ) (n : ℕ),
      min a0 s ≤ windIter a0 s n ∧ windIter a0 s n ≤ max a0 s) ∧
    (∀ a0 s ε : ℚ, 0 < ε → ∃ n, |windIter a0 s n - s| < ε) := by
  refine ⟨?_, ?_, ?_, ?_, ?_⟩
  · intro a s
    unfold windUpdate
    ring
  · intro cfg st ev s hdev hs
    exact ⟨_, checkEvent_wind_eq cfg st ev s hdev hs⟩
  · intro a0 s n
    have h : windIter a0 s (n + 1) - s = (39 / 40 : ℚ) * (windIter a0 s n - s) := by
      simp only [windIter, windUpdate]
      ring
    rw [h, abs_mul, abs_of_pos (by norm_num : (0 : ℚ) < 39 / 40)]
    exact mul_le_of_le_one_left (abs_nonneg _) (by norm_num)
  · intro a0 s n
    induction n with
    | zero => exact ⟨min_le_left _ _, le_max_left _ _⟩
    | succ n ih =>
      obtain ⟨hlo, hhi⟩ := ih
      have hslo : min a0 s ≤ s := min_le_right _ _
      have hshi : s ≤ max a0 s := le_max_right _ _
      constructor
      · show min a0 s ≤ windUpdate (windIter a0 s n) s
        unfold windUpdate
        linarith
      · show windUpdate (windIter a0 s n) s ≤ max a0 s
        unfold windUpdate
        linarith
  · intro a0 s ε hε
    by_cases h0 : a0 - s = 0
    · exact ⟨0, by simpa [windIter, h0, sub_eq_zero] using hε⟩
    · have hC : 0 < |a0 - s| := abs_pos.mpr h0
      obtain ⟨n, hn⟩ := exists_pow_lt_of_lt_one
        (div_pos hε hC) (by norm_num : (39 / 40 : ℚ) < 1)
      refine ⟨n, ?_⟩
      rw [windIter_sub_closed, abs_mul, abs_pow,
        abs_of_pos (by norm_num : (0 : ℚ) < 39 / 40)]
      calc (39 / 40 : ℚ) ^ n * |a0 - s| < (ε / |a0 - s|) * |a0 - s| := by
            exact mul_lt_mul_of_pos_right hn hC
        _ = ε := div_mul_cancel₀ ε (ne_of_gt hC)

/-- The formatted digest sentence is never the fixed fallback sentence:
they differ at the tenth character already. -/
lemma renderSentence_ne_fallback (h l : ℚ) :
    renderSentence h l ≠ fallbackSentence := by
  intro he
  have hd : (renderSentence h l).data.take 10 = fallbackSentence.data.take 10 := by
    rw [he]
  have h1 : (renderSentence h l).data.take 10 =
      ['W', 'e', 'a', 't', 'h', 'e', 'r', ':', ' ', 'O'] := rfl
  have h2 : fallbackSentence.data.take 10 =
      ['W', 'e', 'a', 't', 'h', 'e', 'r', ':', ' ', 'I'] := rfl
  rw [h1, h2] at hd
  exact absurd hd (by decide)

/-- `weatherStats` on two successful (non-panicking) extremum reads: the
fallback sentence exactly when both values are zero, else the formatted
sentence. -/
lemma weatherStats_eq_of_ok (mres lres : QueryResult) (h l : ℚ)
    (hm : getLast24 mres = .ok h) (hl : getLast24 lres = .ok l) :
    weatherStats mres lres =
      .ok (if l = 0 ∧ h = 0 then fallbackSentence else renderSentence h l) := by
  unfold weatherStats
  rw [hm, hl]
  by_cases hc : l = 0 ∧ h = 0 <;> simp [hc]

/-- C2 counterexample: the max query fails (reported as `0.0`) while the min
query returns `5.0`; the digest is the formatted sentence embedding `0.0`,
not the fixed fallback sentence the claim requires. -/
theorem single_failed_query_formats_zero_cex :
    weatherStats (.error "connection refused") (.ok [⟨[⟨5⟩]⟩]) =
      .ok ("Weather: Outside it got up to a very cold 0.0°C and went " ++
        "down to a moderate 5.0°C in the last 24 hours.") ∧
    ("Weather: Outside it got up to a very cold 0.0°C and went " ++
        "down to a moderate 5.0°C in the last 24 hours.") ≠
      fallbackSentence := by
  constructor
  · have hm : getLast24 (.error "connection refused" : QueryResult) = .ok 0 := rfl
    have hl : getLast24 (.ok [⟨[⟨5⟩]⟩] : QueryResult) = .ok 5 := rfl
    rw [weatherStats_eq_of_ok _ _ 0 5 hm hl]
    have hf0 : formatFixed 1 (0 : ℚ) = "0.0" := by
      have h : round ((0 : ℚ) * (10 : ℚ) ^ (1 : ℕ)) = 0 := by
        norm_num [round_eq]
      simp only [formatFixed, h]
      decide
    have hf5 : formatFixed 1 (5 : ℚ) = "5.0" := by
      have h : round ((5 : ℚ) * (10 : ℚ) ^ (1 : ℕ)) = 50 := by
        norm_num [round_eq]
      simp only [formatFixed, h]
      decide
    have hd0 : getTempDesc 0 highTemperatures = "a very cold" := by
      norm_num [getTempDesc, highTemperatures]
    have hd5 : getTempDesc 5 lowTemperatures = "a moderate" := by
      norm_num [getTempDesc, lowTemperatures]
    rw [if_neg (by norm_num)]
    rw [renderSentence, hf0, hf5, hd0, hd5]
    rfl
  · exact fun he => absurd (congrArg (fun s => s.data.take 10) he) (by decide)

/-- C2 amended: the digest falls back exactly when both queried values come
back zero — in particular when both queries fail — and otherwise renders
the formatted sentence from the classified max (high table) and min (low
table) at one decimal; a single failure beside a non-zero value therefore
produces a formatted sentence embedding the placeholder zero, and a
successful query with an empty series panics the tick instead (see the
panic claims). -/
theorem digest_fallback_iff_both_values_zero :
    (∀ (mres lres : QueryResult) (h l : ℚ),
      getLast24 mres = .ok h → getLast24 lres = .ok l →
      weatherStats mres lres =
        .ok (if l = 0 ∧ h = 0 then fallbackSentence
             else renderSentence h l)) ∧
    (∀ e1 e2 : String,
      weatherStats (.error e1) (.error e2) = .ok fallbackSentence) := by
  constructor
  · exact weatherStats_eq_of_ok
  · intro e1 e2
    rfl

/-- C10: a failed query is reported as `0.0`, indistinguishable from a
genuine zero extremum; on two non-panicking reads the digest is the
fallback sentence iff both values are exactly zero; a day whose true min
and max are both `0.0` therefore produces the fallback sentence, and one
failed query beside the max `7.0` produces the formatted sentence
embedding `0.0`. -/
theorem fallback_iff_both_zero_indistinguishable :
    (∀ e : String, getLast24 (.error e) = .ok 0) ∧
    (∀ (mres lres : QueryResult) (h l : ℚ),
      getLast24 mres = .ok h → getLast24 lres = .ok l →
      (weatherStats mres lres = .ok fallbackSentence ↔ l = 0 ∧ h = 0)) ∧
    weatherStats (.ok [⟨[⟨0⟩]⟩]) (.ok [⟨[⟨0⟩]⟩]) = .ok fallbackSentence ∧
    weatherStats (.ok [⟨[⟨7⟩]⟩]) (.error "no route to host") =
      .ok ("Weather: Outside it got up to a chilly 7.0°C and went " ++
        "down to a frosty 0.0°C in the last 24 hours.") := by
  refine ⟨fun e => rfl, ?_, rfl, ?_⟩
  · intro mres lres h l hm hl
    rw [weatherStats_eq_of_ok mres lres h l hm hl]
    constructor
    · intro he
      by_contra hc
      rw [if_neg hc] at he
      exact renderSentence_ne_fallback h l (Except.ok.inj he)
    · intro hc
      rw [if_pos hc]
  · have hm : getLast24 (.ok [⟨[⟨7⟩]⟩] : QueryResult) = .ok 7 := rfl
    have hl : getLast24 (.error "no route to host" : QueryResult) = .ok 0 := rfl
    rw [weatherStats_eq_of_ok _ _ 7 0 hm hl]
    have hf0 : formatFixed 1 (0 : ℚ) = "0.0" := by
      have h : round ((0 : ℚ) * (10 : ℚ) ^ (1 : ℕ)) = 0 := by
        norm_num [round_eq]
      simp only [formatFixed, h]
      decide
    have hf7 : formatFixed 1 (7 : ℚ) = "7.0" := by
      have h : round ((7 : ℚ) * (10 : ℚ) ^ (1 : ℕ)) = 70 := by
        norm_num [round_eq]
      simp only [formatFixed, h]
      decide
    have hd7 : getTempDesc 7 highTemperatures = "a chilly" := by
      norm_num [getTempDesc, highTemperatures]
    have hd0 : getTempDesc 0 lowTemperatures = "a frosty" := by
      norm_num [getTempDesc, lowTemperatures]
    rw [if_neg (by norm_num)]
    rw [renderSentence, hf0, hf7, hd7, hd0]
    rfl

/-- C1: evaluating the embedded code at the failing inputs.  A rain Reading
with no `all_total` float, a temperature Reading with no `temp` float and a
wind Reading whose `speed` is not a float each abort `checkEvent` with a
type-assertion panic (nothing is skipped-and-continued), and a tick whose
query succeeds with an empty series aborts with an index-out-of-range
panic. -/
theorem missing_field_or_empty_series_panics :
    checkEvent ⟨10⟩ ⟨Device.rain, []⟩ initialState =
      .error "interface conversion: all_total" ∧
    checkEvent ⟨10⟩ ⟨Device.temp, [("humidity", GoValue.float 97)]⟩
      initialState = .error "interface conversion: temp" ∧
    checkEvent ⟨10⟩ ⟨Device.wind, [("speed", GoValue.str "12")]⟩
      initialState = .error "interface conversion: speed" ∧
    getLast24 (.ok []) = .error "index out of range" ∧
    getLast24 (.ok [⟨[]⟩]) = .error "index out of range" ∧
    engineStep ⟨10⟩ initialState (.tick (.ok []) (.ok [⟨[⟨5⟩]⟩])) =
      .error "index out of range" := by
  exact ⟨rfl, rfl, rfl, rfl, rfl, rfl⟩
